import Mathlib

/-!
Shallow embedding of the two pieces of executable logic in this repository:

* `skip_pydantic_init` from `docs/api-reference/source/conf.py`, the
  autodoc-process-docstring hook that suppresses pydantic's generated
  constructor docstrings, and
* `get_stock_price` from
  `examples/python/snippets/get-started/stock_agent/stock_agent.py`.

Python objects are modelled by the one observation the hook makes of them:
the outcome of `inspect.getmro(obj)`.  Exceptions are modelled by an
explicit kind, because the hook's `except TypeError:` clause discriminates
on the exception class.  In-place mutation of the docstring line buffer is
modelled by returning the buffer's final contents together with the
function's Python return value and the exception (if any) that propagates
out of the call.
-/

/-- Exception classes that can arise in the embedded code.  `typeError` is
the one class the hook catches; `attributeError` is what `inspect.getmro`
raises on an object with no `__mro__`; `indexError` is what `mro[0]` or
`lines[0]` raises on an empty sequence; `otherError` stands for any further
class (e.g. the blanket `Exception` caught in the stock example). -/
inductive PyExc where
  | typeError
  | attributeError
  | indexError
  | otherError
deriving DecidableEq, Repr

/-- One entry of a method resolution order, reduced to the two predicates the
hook applies to it: `inspect.isclass(entry)` and
`issubclass(entry, pydantic.BaseModel)`.  (For real Python objects the second
implies the first; the code nevertheless tests both, short-circuiting, so the
model keeps them independent.) -/
structure MroEntry where
  isClass : Bool
  isBaseModelSubclass : Bool
deriving DecidableEq, Repr

deriving instance DecidableEq for Except

/-- A Python object as the hook observes it: the result of
`inspect.getmro(obj)`, which either returns the resolution chain or raises. -/
structure PyObj where
  getmro : Except PyExc (List MroEntry)
deriving DecidableEq, Repr

/-- Outcome of one call of the hook: the Python return value (`none` is
Python's `None`; the function body has no `return` statement), the final
contents of the mutable docstring line buffer, and the exception propagating
out of the call, if any. -/
structure HookResult where
  ret : Option Unit
  lines : List String
  raised : Option PyExc
deriving DecidableEq, Repr

/-- The generic phrase tested by the hook:
`lines[0].startswith('Create a new model by parsing')`. -/
def genericPhrase : String := "Create a new model by parsing"

/-- Python `s.startswith(pre)`: prefix test on the character sequences. -/
def startswith (s pre : String) : Bool := pre.data.isPrefixOf s.data

/-- Python list indexing `lines[i]`: raises `IndexError` out of bounds. -/
def pyGetLine (lines : List String) (i : Nat) : Except PyExc String :=
  match lines[i]? with
  | some s => Except.ok s
  | none => Except.error PyExc.indexError

/-- Python `lines and lines[0].startswith('Create a new model by parsing')`:
an empty list is falsy and `and` short-circuits, so the index access is only
performed on a nonempty buffer. -/
def firstLineIsGeneric (lines : List String) : Except PyExc Bool :=
  if lines.isEmpty then Except.ok false
  else (pyGetLine lines 0).map (fun l0 => startswith l0 genericPhrase)

/-- The `what == 'pydantic_model'` branch of `skip_pydantic_init`
(conf.py lines 56-68).  Inside `try`: `mro = inspect.getmro(obj)`, then
`if inspect.isclass(mro[0]) and issubclass(mro[0], pydantic.BaseModel)`, then
`if lines and lines[0].startswith('Create a new model by parsing')`, then
`lines.clear(); lines.append('')`.  The `except TypeError:` clause catches
only `TypeError`; every other exception raised in the body propagates. -/
def pydanticModelBranch (obj : PyObj) (lines : List String) : HookResult :=
  match obj.getmro with
  | Except.error PyExc.typeError => ⟨none, lines, none⟩
  | Except.error k => ⟨none, lines, some k⟩
  | Except.ok [] => ⟨none, lines, some PyExc.indexError⟩
  | Except.ok (e :: _) =>
    if e.isClass && e.isBaseModelSubclass then
      match firstLineIsGeneric lines with
      | Except.error PyExc.typeError => ⟨none, lines, none⟩
      | Except.error k => ⟨none, lines, some k⟩
      | Except.ok true => ⟨none, [""], none⟩
      | Except.ok false => ⟨none, lines, none⟩
    else ⟨none, lines, none⟩

/-- The `elif what == 'method' and name == '__init__'` branch of
`skip_pydantic_init` (conf.py lines 69-79).  Same resolution-chain check as
the model branch, but the body clears the buffer unconditionally: there is no
inspection of `lines` before `lines.clear(); lines.append('')`. -/
def methodBranch (obj : PyObj) (lines : List String) : HookResult :=
  match obj.getmro with
  | Except.error PyExc.typeError => ⟨none, lines, none⟩
  | Except.error k => ⟨none, lines, some k⟩
  | Except.ok [] => ⟨none, lines, some PyExc.indexError⟩
  | Except.ok (e :: _) =>
    if e.isClass && e.isBaseModelSubclass then ⟨none, [""], none⟩
    else ⟨none, lines, none⟩

/-- `skip_pydantic_init(app, what, name, obj, options, lines)` from conf.py.
The `app` and `options` parameters are never read, so they are omitted from
the model.  The function body is an `if / elif` on `what` (and `name`), with
no `return` statement anywhere, so the Python return value is `None` on every
path that does not raise. -/
def skip_pydantic_init (what name : String) (obj : PyObj) (lines : List String) :
    HookResult :=
  if what = "pydantic_model" then pydanticModelBranch obj lines
  else if what = "method" ∧ name = "__init__" then methodBranch obj lines
  else ⟨none, lines, none⟩

/-- `get_stock_price(symbol)` from stock_agent.py.  The observable behaviour
of `yf.Ticker(symbol).history(period="1d")` is abstracted as `fetch`: either
an exception (caught by the blanket `except Exception`, which prints and
returns `None`) or the retrieved one-day history as the list of closing
prices.  `historical_data.empty` is emptiness of that list, and
`historical_data["Close"].iloc[-1]` is its last element. -/
def get_stock_price {α : Type} (fetch : Except PyExc (List α)) : Option α :=
  match fetch with
  | Except.error _ => none
  | Except.ok [] => none
  | Except.ok (p :: ps) => some ((p :: ps).getLast (List.cons_ne_nil p ps))

theorem firstLineIsGeneric_nil : firstLineIsGeneric [] = Except.ok false := rfl

theorem firstLineIsGeneric_cons (l0 : String) (ls : List String) :
    firstLineIsGeneric (l0 :: ls) = Except.ok (startswith l0 genericPhrase) := by
  simp [firstLineIsGeneric, pyGetLine, Except.map]

theorem pydanticModelBranch_lines_shape (obj : PyObj) (lines : List String) :
    (pydanticModelBranch obj lines).lines = lines ∨
    (pydanticModelBranch obj lines).lines = [""] := by
  unfold pydanticModelBranch
  repeat' split
  all_goals first | exact Or.inl rfl | exact Or.inr rfl

theorem methodBranch_lines_shape (obj : PyObj) (lines : List String) :
    (methodBranch obj lines).lines = lines ∨
    (methodBranch obj lines).lines = [""] := by
  unfold methodBranch
  repeat' split
  all_goals first | exact Or.inl rfl | exact Or.inr rfl

theorem pydanticModelBranch_ret (obj : PyObj) (lines : List String) :
    (pydanticModelBranch obj lines).ret = none := by
  unfold pydanticModelBranch
  repeat' split
  all_goals rfl

theorem methodBranch_ret (obj : PyObj) (lines : List String) :
    (methodBranch obj lines).ret = none := by
  unfold methodBranch
  repeat' split
  all_goals rfl

theorem skip_pydantic_init_lines_shape (what name : String) (obj : PyObj)
    (lines : List String) :
    (skip_pydantic_init what name obj lines).lines = lines ∨
    (skip_pydantic_init what name obj lines).lines = [""] := by
  unfold skip_pydantic_init
  split
  · exact pydanticModelBranch_lines_shape obj lines
  · split
    · exact methodBranch_lines_shape obj lines
    · exact Or.inl rfl

theorem skip_pydantic_init_fixed_on_empty_line (what name : String) (obj : PyObj) :
    (skip_pydantic_init what name obj [""]).lines = [""] := by
  rcases skip_pydantic_init_lines_shape what name obj [""] with h | h <;> exact h

theorem pydanticModelBranch_not_generic (obj : PyObj) (lines : List String)
    (h : firstLineIsGeneric lines = Except.ok false) :
    (pydanticModelBranch obj lines).lines = lines := by
  unfold pydanticModelBranch
  rw [h]
  repeat' split
  all_goals first | rfl | simp_all

theorem skip_method_init_clears (obj : PyObj) (e : MroEntry)
    (rest : List MroEntry) (lines : List String)
    (hmro : obj.getmro = Except.ok (e :: rest))
    (hcls : e.isClass = true) (hsub : e.isBaseModelSubclass = true) :
    skip_pydantic_init "method" "__init__" obj lines = ⟨none, [""], none⟩ := by
  simp [skip_pydantic_init, methodBranch, hmro, hcls, hsub]

/-- C1: for a symbol tagged `pydantic_model` whose `inspect.getmro` lookup
succeeds, whose first resolution-chain entry is a class and a subclass of
`pydantic.BaseModel`, and whose docstring line buffer is nonempty with a
first line starting with "Create a new model by parsing",
`skip_pydantic_init` replaces the line buffer with exactly the singleton
list containing one empty line (raising nothing and returning None). -/
theorem C1_pydantic_generic_docstring_cleared (name : String) (obj : PyObj)
    (e : MroEntry) (rest : List MroEntry) (l0 : String) (ls : List String)
    (hmro : obj.getmro = Except.ok (e :: rest))
    (hcls : e.isClass = true) (hsub : e.isBaseModelSubclass = true)
    (hphrase : startswith l0 genericPhrase = true) :
    skip_pydantic_init "pydantic_model" name obj (l0 :: ls) = ⟨none, [""], none⟩ := by
  simp [skip_pydantic_init, pydanticModelBranch, hmro, hcls, hsub,
    firstLineIsGeneric_cons, hphrase]

theorem C1_witness :
    skip_pydantic_init "pydantic_model" "LlmAgent" ⟨Except.ok [⟨true, true⟩]⟩
      ["Create a new model by parsing and validating input data.", "Args:"]
      = ⟨none, [""], none⟩ :=
  C1_pydantic_generic_docstring_cleared "LlmAgent" ⟨Except.ok [⟨true, true⟩]⟩
    ⟨true, true⟩ [] "Create a new model by parsing and validating input data."
    ["Args:"] rfl rfl rfl (by decide)

/-- C2 (counterexample): a symbol tagged `method` named `__init__` whose
resolution chain starts with a `pydantic.BaseModel` subclass but whose
docstring does not begin with the generic phrase is NOT left unchanged:
the code clears the buffer unconditionally in this branch. -/
theorem C2_counterexample :
    (skip_pydantic_init "method" "__init__" ⟨Except.ok [⟨true, true⟩]⟩
      ["Initializes the agent with the given tools."]).lines
      ≠ ["Initializes the agent with the given tools."] := by decide

/-- C2 (amended): for a symbol tagged `method` named `__init__` whose
`inspect.getmro` lookup succeeds with a first entry that is a class and a
subclass of `pydantic.BaseModel`, `skip_pydantic_init` replaces the docstring
line buffer with the singleton list of one empty line regardless of the
buffer's contents — the branch performs no first-line inspection, so a buffer
that does not begin with the generic phrase is cleared as well. -/
theorem C2_method_init_cleared_without_phrase_check (obj : PyObj)
    (e : MroEntry) (rest : List MroEntry) (lines : List String)
    (hmro : obj.getmro = Except.ok (e :: rest))
    (hcls : e.isClass = true) (hsub : e.isBaseModelSubclass = true) :
    skip_pydantic_init "method" "__init__" obj lines = ⟨none, [""], none⟩ :=
  skip_method_init_clears obj e rest lines hmro hcls hsub

theorem C2_witness :
    skip_pydantic_init "method" "__init__" ⟨Except.ok [⟨true, true⟩]⟩
      ["Initializes the session service."] = ⟨none, [""], none⟩ :=
  C2_method_init_cleared_without_phrase_check ⟨Except.ok [⟨true, true⟩]⟩
    ⟨true, true⟩ [] ["Initializes the session service."] rfl rfl rfl

/-- C3 (counterexample): the hook's `except TypeError:` clause catches only
`TypeError`; a resolution-chain lookup that fails with `AttributeError`
propagates out of the filter, so the claim "does not raise any exception,
whatever exception class the failed lookup raises" is false. -/
theorem C3_counterexample :
    (skip_pydantic_init "pydantic_model" "Runner"
      ⟨Except.error PyExc.attributeError⟩ ["Runs the agent."]).raised ≠ none := by
  decide

/-- C3 (amended): for a symbol tagged `pydantic_model`, or tagged `method`
and named `__init__`, whose resolution-chain lookup fails, the filter leaves
the docstring line buffer unchanged; it raises nothing exactly when the
lookup failed with `TypeError` (the one class the handler catches), and a
lookup failure of any other exception class propagates out of the call. -/
theorem C3_lookup_failure_only_typeerror_caught (what name : String)
    (obj : PyObj) (lines : List String) (k : PyExc)
    (htag : what = "pydantic_model" ∨ (what = "method" ∧ name = "__init__"))
    (hmro : obj.getmro = Except.error k) :
    (skip_pydantic_init what name obj lines).lines = lines ∧
    (skip_pydantic_init what name obj lines).raised =
      (if k = PyExc.typeError then none else some k) := by
  rcases htag with hw | ⟨hw, hn⟩
  · subst hw
    rcases k <;> simp [skip_pydantic_init, pydanticModelBranch, hmro]
  · subst hw; subst hn
    rcases k <;> simp [skip_pydantic_init, methodBranch, hmro]

theorem C3_witness :
    (skip_pydantic_init "pydantic_model" "Runner" ⟨Except.error PyExc.typeError⟩
      ["Runs the agent."]).lines = ["Runs the agent."] ∧
    (skip_pydantic_init "pydantic_model" "Runner" ⟨Except.error PyExc.typeError⟩
      ["Runs the agent."]).raised =
      (if PyExc.typeError = PyExc.typeError then none else some PyExc.typeError) :=
  C3_lookup_failure_only_typeerror_caught "pydantic_model" "Runner"
    ⟨Except.error PyExc.typeError⟩ ["Runs the agent."] PyExc.typeError
    (Or.inl rfl) rfl

/-- C4: for a symbol tagged `pydantic_model` whose docstring line buffer does
not start with the generic phrase "Create a new model by parsing" — in
particular an empty buffer, and whatever the resolution-chain entries are —
`skip_pydantic_init` leaves the line buffer unchanged. -/
theorem C4_pydantic_model_not_generic_unchanged (name : String) (obj : PyObj)
    (lines : List String)
    (hphrase : ∀ l0 ls, lines = l0 :: ls → startswith l0 genericPhrase = false) :
    (skip_pydantic_init "pydantic_model" name obj lines).lines = lines := by
  have h : firstLineIsGeneric lines = Except.ok false := by
    rcases lines with _ | ⟨l0, ls⟩
    · exact firstLineIsGeneric_nil
    · rw [firstLineIsGeneric_cons, hphrase l0 ls rfl]
  unfold skip_pydantic_init
  rw [if_pos rfl]
  exact pydanticModelBranch_not_generic obj lines h

theorem C4_witness :
    (skip_pydantic_init "pydantic_model" "Session" ⟨Except.ok [⟨true, true⟩]⟩
      ["Holds conversation state and events."]).lines
      = ["Holds conversation state and events."] :=
  C4_pydantic_model_not_generic_unchanged "Session" ⟨Except.ok [⟨true, true⟩]⟩
    ["Holds conversation state and events."]
    (by
      intro l0 ls hl
      injection hl with h1 _
      subst h1
      decide)

/-- C5: for a symbol tagged `method` named `__init__` whose `inspect.getmro`
lookup succeeds with a first entry that is a class and a subclass of
`pydantic.BaseModel`, and whose first docstring line starts with
"Create a new model by parsing", `skip_pydantic_init` replaces the line
buffer with exactly one empty line — the same result the `pydantic_model`
branch produces for such a docstring. -/
theorem C5_method_init_generic_cleared (obj : PyObj) (e : MroEntry)
    (rest : List MroEntry) (l0 : String) (ls : List String)
    (hmro : obj.getmro = Except.ok (e :: rest))
    (hcls : e.isClass = true) (hsub : e.isBaseModelSubclass = true)
    (hphrase : startswith l0 genericPhrase = true) :
    skip_pydantic_init "method" "__init__" obj (l0 :: ls) = ⟨none, [""], none⟩ :=
  skip_method_init_clears obj e rest (l0 :: ls) hmro hcls hsub

theorem C5_witness :
    skip_pydantic_init "method" "__init__" ⟨Except.ok [⟨true, true⟩]⟩
      ["Create a new model by parsing and validating input data."]
      = ⟨none, [""], none⟩ :=
  C5_method_init_generic_cleared ⟨Except.ok [⟨true, true⟩]⟩ ⟨true, true⟩ []
    "Create a new model by parsing and validating input data." []
    rfl rfl rfl (by decide)

/-- C6: for every input, `skip_pydantic_init` returns Python `None`: the
function body contains no `return` statement, so its only effect is the
in-place mutation of the docstring line buffer. -/
theorem C6_returns_none (what name : String) (obj : PyObj) (lines : List String) :
    (skip_pydantic_init what name obj lines).ret = none := by
  unfold skip_pydantic_init
  split
  · exact pydanticModelBranch_ret obj lines
  · split
    · exact methodBranch_ret obj lines
    · rfl

/-- C7: `get_stock_price` returns the absent-value sentinel `None` exactly
when the underlying data retrieval raises or when the retrieved one-day
history is empty; it returns a price only when retrieval succeeds with a
nonempty history (and that price is the last closing value). -/
theorem C7_stock_price_none_on_failure_or_empty {α : Type}
    (fetch : Except PyExc (List α)) :
    (get_stock_price fetch = none ↔
      (∃ k, fetch = Except.error k) ∨ fetch = Except.ok []) ∧
    (∀ p : α, get_stock_price fetch = some p →
      ∃ q qs, fetch = Except.ok (q :: qs) ∧ p = (q :: qs).getLast (List.cons_ne_nil q qs)) := by
  rcases fetch with k | hist
  · constructor
    · simp [get_stock_price]
    · intro p hp
      simp [get_stock_price] at hp
  · rcases hist with _ | ⟨q, qs⟩
    · constructor
      · simp [get_stock_price]
      · intro p hp
        simp [get_stock_price] at hp
    · constructor
      · simp [get_stock_price]
      · intro p hp
        refine ⟨q, qs, rfl, ?_⟩
        simpa [get_stock_price] using hp.symm

theorem C7_witness :
    get_stock_price (Except.error PyExc.otherError : Except PyExc (List Nat))
      = none :=
  ((C7_stock_price_none_on_failure_or_empty
      (Except.error PyExc.otherError : Except PyExc (List Nat))).1).mpr
    (Or.inl ⟨PyExc.otherError, rfl⟩)

/-- C8: on every input on which `skip_pydantic_init` does not raise, the final
docstring line buffer is either exactly the original sequence of lines or
exactly the singleton list containing one empty string; no other output shape
occurs. -/
theorem C8_result_original_or_single_empty_line (what name : String)
    (obj : PyObj) (lines : List String)
    (hok : (skip_pydantic_init what name obj lines).raised = none) :
    (skip_pydantic_init what name obj lines).lines = lines ∨
    (skip_pydantic_init what name obj lines).lines = [""] :=
  skip_pydantic_init_lines_shape what name obj lines

theorem C8_witness :
    (skip_pydantic_init "pydantic_model" "Agent" ⟨Except.ok [⟨true, true⟩]⟩
      ["Create a new model by parsing keyword arguments."]).lines
      = ["Create a new model by parsing keyword arguments."] ∨
    (skip_pydantic_init "pydantic_model" "Agent" ⟨Except.ok [⟨true, true⟩]⟩
      ["Create a new model by parsing keyword arguments."]).lines = [""] :=
  C8_result_original_or_single_empty_line "pydantic_model" "Agent"
    ⟨Except.ok [⟨true, true⟩]⟩ ["Create a new model by parsing keyword arguments."]
    (by decide)

/-- C9: `skip_pydantic_init` is idempotent on the docstring line buffer: on
every input on which it does not raise, running the filter again with the
same classification tag, name and object on the buffer produced by the first
run leaves that buffer unchanged. -/
theorem C9_idempotent_on_lines (what name : String) (obj : PyObj)
    (lines : List String)
    (hok : (skip_pydantic_init what name obj lines).raised = none) :
    (skip_pydantic_init what name obj
        ((skip_pydantic_init what name obj lines).lines)).lines =
      (skip_pydantic_init what name obj lines).lines := by
  rcases skip_pydantic_init_lines_shape what name obj lines with h | h
  · rw [h]
    exact h
  · rw [h]
    exact skip_pydantic_init_fixed_on_empty_line what name obj

theorem C9_witness :
    (skip_pydantic_init "pydantic_model" "BaseAgent" ⟨Except.ok [⟨true, true⟩]⟩
        ((skip_pydantic_init "pydantic_model" "BaseAgent"
            ⟨Except.ok [⟨true, true⟩]⟩
            ["Create a new model by parsing input data."]).lines)).lines =
      (skip_pydantic_init "pydantic_model" "BaseAgent" ⟨Except.ok [⟨true, true⟩]⟩
        ["Create a new model by parsing input data."]).lines :=
  C9_idempotent_on_lines "pydantic_model" "BaseAgent" ⟨Except.ok [⟨true, true⟩]⟩
    ["Create a new model by parsing input data."] (by decide)

/-- C10: for a symbol tagged `pydantic_model` with an empty docstring line
buffer, `skip_pydantic_init` leaves the buffer empty; the first-line
inspection is short-circuited by the non-emptiness guard (`lines and ...`),
returning `false` without any index access, whereas an unguarded `lines[0]`
on the empty buffer would be the out-of-bounds access raising `IndexError`. -/
theorem C10_empty_buffer_guarded (name : String) (obj : PyObj) :
    (skip_pydantic_init "pydantic_model" name obj []).lines = [] ∧
    firstLineIsGeneric [] = Except.ok false ∧
    pyGetLine [] 0 = Except.error PyExc.indexError := by
  refine ⟨?_, firstLineIsGeneric_nil, rfl⟩
  have h := pydanticModelBranch_not_generic obj [] firstLineIsGeneric_nil
  unfold skip_pydantic_init
  rw [if_pos rfl]
  exact h
